import Mathlib

/-!
Verification of the MedAI-Connect triage core (src/App.jsx).

The development shallowly embeds the rule evaluator (`triageEngine`), the
session store operations (`handleTriage`, `deleteSession`, the clear button
handler together with the persistence effect), and the data model, translating
the JavaScript source line by line:

* symptom text is a `String`, lowercased to a `List Char`; the regular
  expressions of the source are alternations of literal substrings, embedded
  as substring tests (ASCII case folding, as in the source's patterns);
* numeric vital-sign fields are `Option ℚ` (absent/`null` is `none`); the
  JavaScript truthiness test `x && p x` on a number is embedded by the
  `none`/zero cases being false;
* the confidence value is an exact rational; every reachable value is a
  multiple of 0.05, so the embedded `round (c * 100)` agrees with the
  source's `(c * 100).toFixed(0)`;
* urgency labels and warning texts stay the strings of the source.
-/

/-! ### Characters and substring search -/

/-- `hasPre pat s` : `pat` is a leading segment of `s` (character-exact). -/
def hasPre : List Char → List Char → Bool
  | [], _ => true
  | _ :: _, [] => false
  | p :: ps, c :: cs => p == c && hasPre ps cs

/-- `hasSub pat s` : `pat` occurs contiguously somewhere in `s`.  This is the
embedding of a literal (alternation-free) regular-expression `test`. -/
def hasSub (pat : List Char) : List Char → Bool
  | [] => hasPre pat []
  | c :: cs => hasPre pat (c :: cs) || hasSub pat cs

/-- A JS alternation `/p1|p2|...|pn/.test(s)`: some literal occurs in `s`. -/
def anyPat (pats : List String) (s : List Char) : Bool :=
  pats.any (fun p => hasSub p.data s)

/-- `text.toLowerCase()` as a character list (ASCII folding). -/
def lowerStr (s : String) : List Char :=
  s.data.map Char.toLower

/-- `[a-zA-Z0-9]`, the complement of the source's split pattern. -/
def isAlnum (c : Char) : Bool :=
  c.isAlpha || c.isDigit

/-- Counts maximal alphanumeric runs; the flag records whether the previous
character was alphanumeric. -/
def countRuns (inRun : Bool) : List Char → Nat
  | [] => 0
  | c :: cs =>
    if isAlnum c then (if inRun then 0 else 1) + countRuns true cs
    else countRuns false cs

/-- `t.split(/[^a-zA-Z0-9]+/).filter(Boolean).length`: the number of maximal
alphanumeric runs of `t`. -/
def wordCount (t : List Char) : Nat :=
  countRuns false t

/-! ### Data model -/

/-- A device reading; each vital sign is independently absent (`null`). -/
structure DeviceReading where
  spo2 : Option ℚ
  temp : Option ℚ
  hr : Option ℚ
deriving DecidableEq

/-- The payload handed to `triageEngine`: `{ text, device }`. -/
structure SymptomInput where
  text : String
  device : Option DeviceReading
deriving DecidableEq

/-- The triage result.  `confidencePct` is the whole-percentage confidence
(the source displays it with a trailing `%`); the wall-clock timestamp field
of the source is an external input and not part of the embedded result. -/
structure TriageResult where
  urgency : String
  explanation : String
  confidencePct : ℤ
  possible : List String
deriving DecidableEq

/-! ### Symptom flags (App.jsx lines 85-94) -/

structure Flags where
  fever : Bool
  cough : Bool
  breath : Bool
  chest : Bool
  vomit : Bool
  dizzy : Bool
  bleed : Bool
  rash : Bool
deriving DecidableEq

def feverPats : List String := ["fever", "temperature", "hot", "chills"]
def coughPats : List String := ["cough", "coughing"]
def breathPats : List String := ["breath", "breathing", "shortness", "dyspnea", "breathless"]
def chestPats : List String := ["chest", "pressure", "pain in chest"]
def vomitPats : List String := ["vomit", "nausea", "throw up"]
def dizzyPats : List String := ["dizzy", "faint", "lightheaded"]
def bleedPats : List String := ["bleed", "blood"]
def rashPats : List String := ["rash", "itch", "red spot", "spots"]

/-- The eight keyword flags, each a pattern test on the lowercased text. -/
def mkFlags (t : List Char) : Flags where
  fever := anyPat feverPats t
  cough := anyPat coughPats t
  breath := anyPat breathPats t
  chest := anyPat chestPats t
  vomit := anyPat vomitPats t
  dizzy := anyPat dizzyPats t
  bleed := anyPat bleedPats t
  rash := anyPat rashPats t

/-! ### Device warnings (App.jsx lines 96-100) -/

def lowOxygenWarning : String := "Low oxygen saturation (SpO2)"
def feverTempWarning : String := "Fever: elevated body temperature"
def abnormalHrWarning : String := "Abnormal heart rate"

/-- `dev.spo2 && dev.spo2 < 92`: a missing or zero value is falsy in JS, so
no warning is pushed for it. -/
def spo2Warning : Option ℚ → List String
  | none => []
  | some x => if x ≠ 0 ∧ x < 92 then [lowOxygenWarning] else []

/-- `dev.temp && dev.temp >= 38.0`. -/
def tempWarning : Option ℚ → List String
  | none => []
  | some x => if x ≠ 0 ∧ 38 ≤ x then [feverTempWarning] else []

/-- `dev.hr && (dev.hr < 50 || dev.hr > 120)`. -/
def hrWarning : Option ℚ → List String
  | none => []
  | some x => if x ≠ 0 ∧ (x < 50 ∨ 120 < x) then [abnormalHrWarning] else []

/-- The device warnings, in push order. -/
def devWarnings (dev : DeviceReading) : List String :=
  spo2Warning dev.spo2 ++ tempWarning dev.temp ++ hrWarning dev.hr

/-! ### Urgency (App.jsx lines 102-126) -/

def urgLow : String := "low"
def urgModerate : String := "moderate"
def urgHigh : String := "high"

def breathChestReason : String :=
  "Symptoms related to breathing or chest pain can be serious."
def feverCoughReason : String :=
  "Fever with cough may need medical review within 24-48 hours."
def feverAloneReason : String :=
  "Fever alone often needs home care and monitoring."
def rashFeverReason : String :=
  "Fever with rash can be a sign of infection; consult if it worsens."
def vomitDizzyReason : String :=
  "Persistent vomiting or dizziness can cause dehydration and needs attention."
def mildReason : String :=
  "Symptoms seem mild from the description."

def oxygenPat : String := "oxygen"
def heartPat : String := "heart"
def breathPat : String := "breath"

/-- `/oxygen|heart|breath/i.test(w)` (case-insensitive, so both sides are
lowercased; the patterns are already lowercase). -/
def warnRegexA (w : String) : Bool :=
  anyPat [oxygenPat, heartPat, breathPat] (lowerStr w)

/-- Condition of branch (a): `flags.chest || flags.breath ||
devWarnings.some(w => /oxygen|heart|breath/i.test(w))`. -/
def branchA (f : Flags) (dw : List String) : Bool :=
  f.chest || f.breath || dw.any warnRegexA

/-- Lines 102-121: the first-matching if/else chain.  Returns the urgency and
the reason parts pushed by the taken branch (the initial `urgency = "low"` is
kept by the final `else`). -/
def step4 (f : Flags) (dw : List String) : String × List String :=
  if branchA f dw then (urgHigh, [breathChestReason])
  else if f.fever && f.cough then (urgModerate, [feverCoughReason])
  else if f.fever then (urgLow, [feverAloneReason])
  else if f.rash && f.fever then (urgModerate, [rashFeverReason])
  else if f.vomit || f.dizzy then (urgModerate, [vomitDizzyReason])
  else (urgLow, [mildReason])

def lowOxyPat : String := "low oxygen"
def abnHrPat : String := "abnormal heart rate"

/-- `/Low oxygen|Abnormal heart rate/i.test(w)`. -/
def warnRegexB (w : String) : Bool :=
  anyPat [lowOxyPat, abnHrPat] (lowerStr w)

def deviceLinePre : String := "Device reading: "
def dotStr : String := "."

/-- Line 124: the explanation line appended per device warning. -/
def deviceLine (w : String) : String :=
  deviceLinePre ++ w ++ dotStr

/-- Lines 123-124: append one line per device warning when any exist. -/
def reasonsWithDevice (rs : List String) (dw : List String) : List String :=
  if 0 < dw.length then rs ++ dw.map deviceLine else rs

/-- Lines 123-125: the device-warning override of the urgency. -/
def step6 (urg : String) (dw : List String) : String :=
  if 0 < dw.length then
    (if dw.any warnRegexB then urgHigh else urg)
  else urg

/-! ### Confidence (App.jsx lines 127-133) -/

/-- Lines 128-132, before the final clamp: base 0.6, `+0.15` for a wordy
description, `+0.15` for any device warning, raised to at least 0.8 when the
urgency is high. -/
def confRaw (wc : Nat) (dwLen : Nat) (urg : String) : ℚ :=
  let c1 : ℚ := if wc > 6 then 0.6 + 0.15 else 0.6
  let c2 : ℚ := if dwLen > 0 then c1 + 0.15 else c1
  if urg == urgHigh then max c2 0.8 else c2

/-- Line 133: `confidence = Math.min(0.95, confidence)`. -/
def confidence (wc : Nat) (dwLen : Nat) (urg : String) : ℚ :=
  min 0.95 (confRaw wc dwLen urg)

/-! ### Possible conditions (App.jsx lines 134-140) -/

def fluCondition : String := "Flu or respiratory infection"
def pneumoniaCondition : String := "Lower respiratory tract issue (e.g., pneumonia)"
def rashCondition : String := "Allergic reaction or skin infection"
def gastroCondition : String := "Gastroenteritis or food-related illness"
def coldCondition : String := "Common cold or minor viral illness"

/-- The four independent condition pushes, in check order. -/
def possiblePushes (f : Flags) : List String :=
  (if f.fever && f.cough then [fluCondition] else []) ++
  (if f.cough && f.breath then [pneumoniaCondition] else []) ++
  (if f.rash then [rashCondition] else []) ++
  (if f.vomit then [gastroCondition] else [])

/-- The pushes, then the default entry when none matched. -/
def possibleConditions (f : Flags) : List String :=
  if (possiblePushes f).length = 0 then [coldCondition] else possiblePushes f

/-! ### The rule evaluator (App.jsx lines 80-149) -/

def sepSpace : String := " "

def emptyDevice : DeviceReading := { spo2 := none, temp := none, hr := none }

/-- `triageEngine({ text, device })`, assembling the steps above.  The
confidence percentage is `round(confidence * 100)`, agreeing with the
source's `toFixed(0)` on every reachable value. -/
def triageEngine (inp : SymptomInput) : TriageResult :=
  let t := lowerStr inp.text
  let f := mkFlags t
  let dev := inp.device.getD emptyDevice
  let dw := devWarnings dev
  let urg := step6 (step4 f dw).1 dw
  { urgency := urg
    explanation := String.intercalate sepSpace (reasonsWithDevice (step4 f dw).2 dw)
    confidencePct := round (confidence (wordCount t) dw.length urg * 100)
    possible := possibleConditions f }

/-! ### Sessions and the store (App.jsx lines 28-41, 150-160, 181-183, 254) -/

/-- One recorded triage interaction. -/
structure Session where
  id : String
  input : SymptomInput
  result : TriageResult
deriving DecidableEq

def idPre : String := "s_"

/-- The session identifier `` `s_${Date.now()}` ``; the clock value is an
external input, rendered in decimal. -/
def mkId (now : Nat) : String :=
  idPre ++ Nat.repr now

/-- Line 159: `setSessions(prev => [session, ...prev].slice(0, 50))`. -/
def addSession (s : Session) (store : List Session) : List Session :=
  (s :: store).take 50

/-- Lines 150-160: build the session for the current input and add it. -/
def handleTriage (now : Nat) (inp : SymptomInput) (store : List Session) : List Session :=
  addSession { id := mkId now, input := inp, result := triageEngine inp } store

/-- Lines 181-183: `prev.filter(s => s.id !== id)`. -/
def deleteSession (id : String) (store : List Session) : List Session :=
  store.filter (fun s => s.id != id)

/-- The in-memory session list together with the value persisted under the
`medai_sessions` key.  The persisted JSON is modelled in parsed form;
`none` stands for an absent (or unparsable, by the catch on line 32) entry. -/
structure AppState where
  sessions : List Session
  storage : Option (List Session)
deriving DecidableEq

/-- Lines 28-35: the startup load — parse the persisted value, else empty. -/
def loadSessions (storage : Option (List Session)) : List Session :=
  storage.getD []

/-- Line 254, the button handler: `setSessions([]);
localStorage.removeItem('medai_sessions')`. -/
def clearHandler (_st : AppState) : AppState :=
  { sessions := [], storage := none }

/-- Lines 39-41: the write-through effect persisting `sessions` after every
change to it. -/
def persistEffect (st : AppState) : AppState :=
  { st with storage := some st.sessions }

/-- The observable clear operation: the button handler followed by the
persistence effect that React runs after the state update. -/
def clearSessions (st : AppState) : AppState :=
  persistEffect (clearHandler st)

/-! ### Reachable store states -/

/-- A user-triggered store mutation; `add` carries the `Date.now()` value. -/
inductive StoreOp where
  | add (now : Nat) (inp : SymptomInput)
  | del (id : String)
  | clear
deriving DecidableEq

/-- The effect of one operation on the session list. -/
def applyOp (store : List Session) : StoreOp → List Session
  | .add now inp => handleTriage now inp store
  | .del id => deleteSession id store
  | .clear => []

/-- Run a sequence of operations from a starting store. -/
def runOpsFrom (store : List Session) (ops : List StoreOp) : List Session :=
  ops.foldl applyOp store

/-- Run a sequence of operations from the empty store. -/
def runOps (ops : List StoreOp) : List Session :=
  runOpsFrom [] ops

/-- The `Date.now()` values of the `add` operations, in order. -/
def addTimes : List StoreOp → List Nat
  | [] => []
  | .add now _ :: ops => now :: addTimes ops
  | .del _ :: ops => addTimes ops
  | .clear :: ops => addTimes ops

/-- The stored ids, newest-first. -/
def sessionIds (store : List Session) : List String :=
  store.map Session.id

/-- Adding a list of sessions in sequence (first element added first). -/
def addAll (store : List Session) (ss : List Session) : List Session :=
  ss.foldl (fun st s => addSession s st) store

/-! ### Decimal rendering is injective

The session id embeds the clock value through `Nat.repr`; injectivity of the
decimal rendering is established by evaluating the digit string back to the
number. -/

/-- Numeric value of a decimal digit character. -/
def digitVal (c : Char) : Nat :=
  c.toNat - 48

/-- Evaluate a most-significant-first digit string. -/
def valOfDigits (cs : List Char) : Nat :=
  cs.foldl (fun a c => 10 * a + digitVal c) 0

theorem digitVal_digitChar {m : Nat} (h : m < 10) :
    digitVal (Nat.digitChar m) = m := by
  interval_cases m <;> rfl

theorem valOfDigits_append_singleton (xs : List Char) (c : Char) :
    valOfDigits (xs ++ [c]) = 10 * valOfDigits xs + digitVal c := by
  simp [valOfDigits, List.foldl_append]

theorem toDigitsCore_acc (f : Nat) :
    ∀ (n : Nat) (acc : List Char),
      Nat.toDigitsCore 10 f n acc = Nat.toDigitsCore 10 f n [] ++ acc := by
  induction f with
  | zero => intro n acc; simp [Nat.toDigitsCore]
  | succ f ih =>
    intro n acc
    simp only [Nat.toDigitsCore]
    by_cases h : n / 10 = 0
    · simp [h]
    · simp only [h, if_false]
      rw [ih (n / 10) (Nat.digitChar (n % 10) :: acc),
        ih (n / 10) [Nat.digitChar (n % 10)], List.append_assoc]
      rfl

theorem valOfDigits_toDigitsCore (f : Nat) :
    ∀ n : Nat, n < f → valOfDigits (Nat.toDigitsCore 10 f n []) = n := by
  induction f with
  | zero => intro n hn; omega
  | succ f ih =>
    intro n hn
    simp only [Nat.toDigitsCore]
    by_cases h : n / 10 = 0
    · have hn10 : n < 10 := by omega
      simp only [h, if_true]
      have : valOfDigits [Nat.digitChar (n % 10)] = digitVal (Nat.digitChar (n % 10)) := by
        simp [valOfDigits]
      rw [this, digitVal_digitChar (Nat.mod_lt n (by norm_num)), Nat.mod_eq_of_lt hn10]
    · have h10 : 10 ≤ n := by omega
      have hd : n / 10 < f := by
        have h1 : n / 10 < n := Nat.div_lt_self (by omega) (by norm_num)
        omega
      simp only [h, if_false]
      rw [toDigitsCore_acc, valOfDigits_append_singleton, ih (n / 10) hd,
        digitVal_digitChar (Nat.mod_lt n (by omega)), Nat.div_add_mod]

theorem data_repr_eq_toDigits (n : Nat) :
    (Nat.repr n).data = Nat.toDigits 10 n := by
  simp [Nat.repr, List.asString]

theorem valOfDigits_data_repr (n : Nat) :
    valOfDigits (Nat.repr n).data = n := by
  rw [data_repr_eq_toDigits]
  exact valOfDigits_toDigitsCore (n + 1) n (Nat.lt_succ_self n)

theorem repr_injective : Function.Injective Nat.repr := by
  intro a b h
  have := congrArg (fun s => valOfDigits (String.data s)) h
  simpa [valOfDigits_data_repr] using this

theorem mkId_injective : Function.Injective mkId := by
  intro a b h
  have hd : (mkId a).data = (mkId b).data := congrArg String.data h
  simp only [mkId, String.data_append] at hd
  have : (Nat.repr a).data = (Nat.repr b).data :=
    List.append_cancel_left hd
  have : Nat.repr a = Nat.repr b := by
    cases ha : Nat.repr a with
    | mk la =>
      cases hb : Nat.repr b with
      | mk lb =>
        simp only [ha, hb] at this
        exact congrArg String.mk (by simpa using this)
  exact repr_injective this

/-! ### Views of the evaluator's intermediate data -/

/-- The flags computed by `triageEngine` for an input. -/
def triageFlags (inp : SymptomInput) : Flags :=
  mkFlags (lowerStr inp.text)

/-- The device warnings computed by `triageEngine` for an input. -/
def triageWarnings (inp : SymptomInput) : List String :=
  devWarnings (inp.device.getD emptyDevice)

theorem triageEngine_urgency (inp : SymptomInput) :
    (triageEngine inp).urgency =
      step6 (step4 (triageFlags inp) (triageWarnings inp)).1 (triageWarnings inp) := rfl

theorem triageEngine_possible (inp : SymptomInput) :
    (triageEngine inp).possible = possibleConditions (triageFlags inp) := rfl

theorem triageEngine_confidencePct (inp : SymptomInput) :
    (triageEngine inp).confidencePct =
      round (confidence (wordCount (lowerStr inp.text)) (triageWarnings inp).length
        ((triageEngine inp).urgency) * 100) := rfl

theorem step4_fst_cases (f : Flags) (dw : List String) :
    (step4 f dw).1 = urgLow ∨ (step4 f dw).1 = urgModerate ∨ (step4 f dw).1 = urgHigh := by
  unfold step4
  split_ifs <;> simp

theorem step6_cases (urg : String) (dw : List String) :
    step6 urg dw = urg ∨ step6 urg dw = urgHigh := by
  unfold step6
  split_ifs <;> simp

theorem step6_high (dw : List String) : step6 urgHigh dw = urgHigh := by
  unfold step6
  split_ifs <;> rfl

/-! ### Concrete inputs used below -/

def inpEmpty : SymptomInput := { text := "", device := none }
def inpFever : SymptomInput := { text := "fever", device := none }
def inpChest : SymptomInput := { text := "chest pain", device := none }
def devSpo2Zero : DeviceReading := { spo2 := some 0, temp := none, hr := none }
def inpSpo2Zero : SymptomInput := { text := "", device := some devSpo2Zero }
def dev85 : DeviceReading := { spo2 := some 85, temp := none, hr := none }
def inp85 : SymptomInput := { text := "", device := some dev85 }
def sampleSession : Session :=
  { id := mkId 1, input := inpEmpty, result := triageEngine inpEmpty }

/-! ### C1 -/

/-- C1 (counterexample): a reading with `spo2 = 0` is present and below 92,
yet — `0` being falsy in the source's `dev.spo2 && dev.spo2 < 92` — no
low-oxygen warning is pushed and the urgency stays `low`, not `high`. -/
theorem c1_spo2_zero_counterexample :
    devSpo2Zero.spo2 = some 0 ∧ (0 : ℚ) < 92 ∧
    lowOxygenWarning ∉ devWarnings devSpo2Zero ∧
    (triageEngine inpSpo2Zero).urgency ≠ urgHigh := by
  decide

/-- C1 (amended): for every input whose device reading has a nonzero oxygen
saturation below 92, the low-oxygen warning is emitted and the returned
urgency is `high`, regardless of the symptom text. -/
theorem c1_low_oxygen_forces_high (inp : SymptomInput) (d : DeviceReading) (x : ℚ)
    (hdev : inp.device = some d) (hs : d.spo2 = some x) (hx0 : x ≠ 0) (hx : x < 92) :
    lowOxygenWarning ∈ devWarnings d ∧ (triageEngine inp).urgency = urgHigh := by
  have hw : spo2Warning d.spo2 = [lowOxygenWarning] := by
    rw [hs]
    simp [spo2Warning, hx0, hx]
  have hdw : devWarnings d = lowOxygenWarning :: (tempWarning d.temp ++ hrWarning d.hr) := by
    simp [devWarnings, hw]
  have hB : warnRegexB lowOxygenWarning = true := by decide
  constructor
  · rw [hdw]
    exact List.mem_cons_self _ _
  · rw [triageEngine_urgency]
    have hTW : triageWarnings inp = devWarnings d := by
      simp [triageWarnings, hdev]
    rw [hTW, hdw]
    simp [step6, hB]

/-- C1 (witness): a concrete reading `spo2 = 85` with empty text. -/
theorem c1_witness :
    lowOxygenWarning ∈ devWarnings dev85 ∧ (triageEngine inp85).urgency = urgHigh :=
  c1_low_oxygen_forces_high inp85 dev85 85 rfl rfl (by decide) (by decide)

/-! ### C2 -/

/-- Modelled from the spec's §4.1 step 4 branch list: the conditions (a)-(e)
with their urgencies and reasons, in the listed order. -/
def branchTable (f : Flags) (dw : List String) : List (Bool × String × List String) :=
  [ (branchA f dw, urgHigh, [breathChestReason]),
    (f.fever && f.cough, urgModerate, [feverCoughReason]),
    (f.fever, urgLow, [feverAloneReason]),
    (f.rash && f.fever, urgModerate, [rashFeverReason]),
    (f.vomit || f.dizzy, urgModerate, [vomitDizzyReason]) ]

/-- First-matching evaluation of a branch table; the default is branch (f). -/
def firstMatching : List (Bool × String × List String) → String × List String
  | [] => (urgLow, [mildReason])
  | (c, u, r) :: rest => if c then (u, r) else firstMatching rest

/-- C2: step 4 is the first-matching evaluation of branches (a)-(f) in the
listed order; hence fever without cough and with branch (a) false lands in
branch (c) (`low`, fever-alone reason), and branch (d) never provides the
result. -/
theorem c2_branch_order (inp : SymptomInput) :
    ((triageFlags inp).fever = true → (triageFlags inp).cough = false →
      branchA (triageFlags inp) (triageWarnings inp) = false →
      step4 (triageFlags inp) (triageWarnings inp) = (urgLow, [feverAloneReason]))
    ∧ (step4 (triageFlags inp) (triageWarnings inp)).2 ≠ [rashFeverReason]
    ∧ step4 (triageFlags inp) (triageWarnings inp) =
        firstMatching (branchTable (triageFlags inp) (triageWarnings inp)) := by
  refine ⟨?_, ?_, ?_⟩
  · intro hf hc hA
    simp [step4, hA, hf, hc]
  · unfold step4
    split_ifs with h1 h2 h3 h4 h5
    · decide
    · decide
    · decide
    · simp only [Bool.and_eq_true] at h4
      exact absurd h4.2 h3
    · decide
    · decide
  · rfl

/-- C2 (witness): the text `"fever"` with no device reading. -/
theorem c2_witness :
    step4 (triageFlags inpFever) (triageWarnings inpFever) = (urgLow, [feverAloneReason]) :=
  (c2_branch_order inpFever).1 (by decide) (by decide) (by decide)

/-! ### C6 -/

/-- C6: a chest or breathing keyword forces `high` urgency whatever the
device reading; the device-warning step returns either step 4's urgency or
`high` (it can upgrade, never downgrade). -/
theorem c6_chest_breath_high (inp : SymptomInput) :
    ((triageFlags inp).chest = true ∨ (triageFlags inp).breath = true →
      (triageEngine inp).urgency = urgHigh)
    ∧ ((triageEngine inp).urgency = (step4 (triageFlags inp) (triageWarnings inp)).1 ∨
       (triageEngine inp).urgency = urgHigh) := by
  constructor
  · intro h
    have hA : branchA (triageFlags inp) (triageWarnings inp) = true := by
      rcases h with h | h <;> simp [branchA, h]
    have h4 : (step4 (triageFlags inp) (triageWarnings inp)).1 = urgHigh := by
      simp [step4, hA]
    rw [triageEngine_urgency, h4, step6_high]
  · rw [triageEngine_urgency]
    exact step6_cases _ _

/-- C6 (witness): the text `"chest pain"` with no device reading. -/
theorem c6_witness : (triageEngine inpChest).urgency = urgHigh :=
  (c6_chest_breath_high inpChest).1 (Or.inl (by decide))

/-! ### C4, C10, C5: confidence and result shape -/

/-- Modelled from the spec's §4.1 step 7 wording: start at 0.60; add 0.15 if
the tokenized word count exceeds 6; add 0.15 if any device warning exists;
if the urgency is `high`, raise to at least 0.80; clamp to a maximum of
0.95; report `round(confidence*100)`. -/
def confSpecPct (wc : Nat) (hasWarning : Bool) (isHigh : Bool) : ℤ :=
  let c0 : ℚ := 0.6
  let c1 : ℚ := if 6 < wc then c0 + 0.15 else c0
  let c2 : ℚ := if hasWarning then c1 + 0.15 else c1
  let c3 : ℚ := if isHigh then max c2 0.8 else c2
  round (min c3 0.95 * 100)

/-- C4: for every input the reported percentage is exactly the spec's
confidence formula, applied to the word count, the presence of a device
warning, and the final urgency. -/
theorem c4_confidence_formula (inp : SymptomInput) :
    (triageEngine inp).confidencePct =
      confSpecPct (wordCount (lowerStr inp.text))
        (!(triageWarnings inp).isEmpty)
        ((triageEngine inp).urgency == urgHigh) := by
  rw [triageEngine_confidencePct]
  unfold confidence confRaw confSpecPct
  rw [min_comm]
  cases triageWarnings inp <;> simp [List.isEmpty]

/-- Every pre-clamp confidence value is one of 0.6, 0.75, 0.8, 0.9. -/
theorem confRaw_cases (wc : Nat) (dwLen : Nat) (urg : String) :
    confRaw wc dwLen urg = 0.6 ∨ confRaw wc dwLen urg = 0.75 ∨
    confRaw wc dwLen urg = 0.8 ∨ confRaw wc dwLen urg = 0.9 := by
  unfold confRaw
  split_ifs <;> norm_num [max_def]

/-- The 0.95 clamp never binds. -/
theorem confidence_eq_confRaw (wc : Nat) (dwLen : Nat) (urg : String) :
    confidence wc dwLen urg = confRaw wc dwLen urg := by
  rcases confRaw_cases wc dwLen urg with h | h | h | h <;>
    rw [confidence, h] <;> norm_num

/-- The reported percentage is one of 60, 75, 80, 90. -/
theorem confidencePct_cases (wc : Nat) (dwLen : Nat) (urg : String) :
    round (confidence wc dwLen urg * 100) = 60 ∨
    round (confidence wc dwLen urg * 100) = 75 ∨
    round (confidence wc dwLen urg * 100) = 80 ∨
    round (confidence wc dwLen urg * 100) = 90 := by
  rw [confidence_eq_confRaw]
  rcases confRaw_cases wc dwLen urg with h | h | h | h <;>
    rw [h] <;> norm_num [round_eq]

/-- C10: the reported percentage always lies in {60, 75, 80, 90} — never
below 60, never above 90 — and the 0.95 clamp is never the binding bound. -/
theorem c10_confidence_range (inp : SymptomInput) :
    ((triageEngine inp).confidencePct = 60 ∨ (triageEngine inp).confidencePct = 75 ∨
     (triageEngine inp).confidencePct = 80 ∨ (triageEngine inp).confidencePct = 90)
    ∧ 60 ≤ (triageEngine inp).confidencePct ∧ (triageEngine inp).confidencePct ≤ 90
    ∧ confidence (wordCount (lowerStr inp.text)) (triageWarnings inp).length
        ((triageEngine inp).urgency) =
      confRaw (wordCount (lowerStr inp.text)) (triageWarnings inp).length
        ((triageEngine inp).urgency) := by
  rw [triageEngine_confidencePct]
  refine ⟨confidencePct_cases _ _ _, ?_, ?_, confidence_eq_confRaw _ _ _⟩ <;>
    rcases confidencePct_cases (wordCount (lowerStr inp.text)) (triageWarnings inp).length
      ((triageEngine inp).urgency) with h | h | h | h <;>
    rw [h] <;> norm_num

theorem possibleConditions_length_pos (f : Flags) :
    1 ≤ (possibleConditions f).length := by
  unfold possibleConditions
  by_cases h : (possiblePushes f).length = 0
  · simp [h]
  · simp [h]
    omega

/-- C5: every result has urgency in {low, moderate, high}, an integer
confidence percentage in [0, 95], and at least one possible condition; when
none of the four condition checks matched, the sole entry is the
common-cold default. -/
theorem c5_result_shape (inp : SymptomInput) :
    ((triageEngine inp).urgency = urgLow ∨ (triageEngine inp).urgency = urgModerate ∨
     (triageEngine inp).urgency = urgHigh)
    ∧ 0 ≤ (triageEngine inp).confidencePct ∧ (triageEngine inp).confidencePct ≤ 95
    ∧ 1 ≤ (triageEngine inp).possible.length
    ∧ (((triageFlags inp).fever && (triageFlags inp).cough) = false →
       ((triageFlags inp).cough && (triageFlags inp).breath) = false →
       (triageFlags inp).rash = false → (triageFlags inp).vomit = false →
       (triageEngine inp).possible = [coldCondition]) := by
  refine ⟨?_, ?_, ?_, ?_, ?_⟩
  · rw [triageEngine_urgency]
    rcases step6_cases (step4 (triageFlags inp) (triageWarnings inp)).1 (triageWarnings inp)
      with h | h <;> rw [h]
    · exact step4_fst_cases _ _
    · simp
  · rcases (c10_confidence_range inp).2.1 with h
    omega
  · rcases (c10_confidence_range inp).2.2.1 with h
    omega
  · rw [triageEngine_possible]
    exact possibleConditions_length_pos _
  · intro h1 h2 h3 h4
    rw [triageEngine_possible]
    have e : possiblePushes (triageFlags inp) = [] := by
      unfold possiblePushes
      rw [h1, h2, h3, h4]
      simp
    simp [possibleConditions, e]

/-- C5 (witness): empty text and no device reading. -/
theorem c5_witness : (triageEngine inpEmpty).possible = [coldCondition] :=
  (c5_result_shape inpEmpty).2.2.2.2 (by decide) (by decide) (by decide) (by decide)

/-! ### C3: the 50-entry cap -/

theorem take_append_take {α : Type} (a b : List α) (n : Nat) :
    (a ++ b.take n).take n = (a ++ b).take n := by
  rw [List.take_append_eq_append_take, List.take_append_eq_append_take, List.take_take,
    min_eq_left (Nat.sub_le n a.length)]

theorem addSession_length_le (s : Session) (st : List Session) :
    (addSession s st).length ≤ 50 := by
  simp [addSession, List.length_take]

theorem runOpsFrom_length_le (ops : List StoreOp) :
    ∀ st : List Session, st.length ≤ 50 → (runOpsFrom st ops).length ≤ 50 := by
  induction ops with
  | nil => intro st h; exact h
  | cons op ops ih =>
    intro st h
    cases op with
    | add now inp => exact ih _ (addSession_length_le _ _)
    | del id => exact ih _ (le_trans (List.length_filter_le _ _) h)
    | clear => exact ih _ (by simp [applyOp])

theorem addAll_eq (ss : List Session) :
    ∀ st : List Session, st.length ≤ 50 → addAll st ss = (ss.reverse ++ st).take 50 := by
  induction ss with
  | nil => intro st h; simp [addAll, List.take_of_length_le h]
  | cons s ss ih =>
    intro st h
    calc addAll st (s :: ss) = addAll (addSession s st) ss := rfl
      _ = (ss.reverse ++ (s :: st).take 50).take 50 := ih _ (addSession_length_le s st)
      _ = (ss.reverse ++ (s :: st)).take 50 := take_append_take _ _ _
      _ = ((s :: ss).reverse ++ st).take 50 := by simp

/-- C3: from any store within the cap, every operation sequence stays within
50 entries; adding 51 sessions in sequence to the empty store leaves exactly
the last 50, newest-first — the first-added (original oldest) is evicted. -/
theorem c3_store_bounded :
    (∀ (st : List Session) (ops : List StoreOp), st.length ≤ 50 →
      (runOpsFrom st ops).length ≤ 50)
    ∧ (∀ ss : List Session, ss.length = 51 →
        addAll [] ss = (ss.drop 1).reverse ∧ (addAll [] ss).length = 50) := by
  constructor
  · intro st ops h
    exact runOpsFrom_length_le ops st h
  · intro ss h
    have e : addAll [] ss = (ss.drop 1).reverse := by
      rw [addAll_eq ss [] (by simp), List.append_nil, List.take_reverse, h]
    refine ⟨e, ?_⟩
    rw [e]
    simp [h]

/-- C3 (witness): the empty store, and 51 copies of a concrete session. -/
theorem c3_witness :
    (runOpsFrom [] []).length ≤ 50 ∧
    addAll [] (List.replicate 51 sampleSession) =
      ((List.replicate 51 sampleSession).drop 1).reverse :=
  ⟨c3_store_bounded.1 [] [] (by decide),
   (c3_store_bounded.2 (List.replicate 51 sampleSession) (by simp)).1⟩

/-! ### C9: delete -/

/-- C9: `delete(id)` removes exactly the sessions with the given id, is a
no-op when no stored session has it, and is idempotent. -/
theorem c9_delete_idempotent (id : String) (store : List Session) :
    (∀ s ∈ deleteSession id store, s.id ≠ id)
    ∧ ((∀ s ∈ store, s.id ≠ id) → deleteSession id store = store)
    ∧ deleteSession id (deleteSession id store) = deleteSession id store := by
  refine ⟨?_, ?_, ?_⟩
  · intro s hs
    have h := List.of_mem_filter hs
    simpa using h
  · intro h
    simp only [deleteSession]
    apply List.filter_eq_self.mpr
    intro s hs
    simpa using h s hs
  · simp only [deleteSession, List.filter_filter]
    simp

/-- C9 (witness): deleting an id absent from a one-session store. -/
theorem c9_witness : deleteSession (mkId 0) [sampleSession] = [sampleSession] :=
  (c9_delete_idempotent (mkId 0) [sampleSession]).2.1 (by decide)

/-! ### C7: clear -/

def stOne : AppState :=
  { sessions := [sampleSession], storage := some [sampleSession] }

/-- C7 (counterexample): after the clear button's `removeItem`, the
write-through effect (which runs on the state change) persists the empty
list again, so the persisted entry is not removed. -/
theorem c7_counterexample : (clearSessions stOne).storage ≠ none := by decide

/-- C7 (amended): clear empties the sequence; the handler removes the
persisted entry but the write-through effect immediately re-persists the
empty sequence, and a subsequent fresh load yields an empty store. -/
theorem c7_clear_empties (st : AppState) :
    (clearSessions st).sessions = [] ∧ (clearHandler st).storage = none ∧
    (clearSessions st).storage = some [] ∧
    loadSessions (clearSessions st).storage = [] := by
  simp [clearSessions, clearHandler, persistEffect, loadSessions]

/-! ### C8: id freshness -/

def dupOps : List StoreOp := [StoreOp.add 0 inpEmpty, StoreOp.add 0 inpEmpty]

/-- C8 (counterexample): two adds within the same millisecond (`Date.now()`
returning 0 twice) store two sessions with the same id `s_0`. -/
theorem c8_counterexample : ¬ (sessionIds (runOps dupOps)).Nodup := by decide

theorem runOpsFrom_nodup (ops : List StoreOp) :
    ∀ st : List Session,
      (sessionIds st).Nodup →
      (∀ i ∈ sessionIds st, ∀ t ∈ addTimes ops, i ≠ mkId t) →
      (addTimes ops).Nodup →
      (sessionIds (runOpsFrom st ops)).Nodup := by
  induction ops with
  | nil => intro st h1 _ _; exact h1
  | cons op ops ih =>
    cases op with
    | add now inp =>
      intro st h1 h2 h3
      have hids : sessionIds (applyOp st (StoreOp.add now inp)) =
          (mkId now :: sessionIds st).take 50 := by
        simp [applyOp, handleTriage, addSession, sessionIds, List.map_take]
      have hnotmem : mkId now ∉ sessionIds st := fun hmem =>
        h2 _ hmem now (by simp [addTimes]) rfl
      have h3' : now ∉ addTimes ops ∧ (addTimes ops).Nodup :=
        List.nodup_cons.mp h3
      refine ih _ ?_ ?_ h3'.2
      · rw [hids]
        exact List.Nodup.sublist (List.take_sublist _ _)
          (List.nodup_cons.mpr ⟨hnotmem, h1⟩)
      · intro i hi t ht
        rw [hids] at hi
        rcases List.mem_cons.mp (List.mem_of_mem_take hi) with rfl | hi3
        · intro he
          exact h3'.1 (by rw [mkId_injective he]; exact ht)
        · exact h2 i hi3 t (by simp [addTimes, ht])
    | del id =>
      intro st h1 h2 h3
      refine ih _ ?_ ?_ h3
      · exact List.Nodup.sublist (List.Sublist.map _ (List.filter_sublist st)) h1
      · intro i hi t ht
        have hi' : i ∈ sessionIds st := by
          rcases List.mem_map.mp hi with ⟨s, hs, rfl⟩
          exact List.mem_map_of_mem _ (List.mem_of_mem_filter hs)
        exact h2 i hi' t ht
    | clear =>
      intro st h1 h2 h3
      refine ih _ ?_ ?_ h3
      · simp [applyOp, sessionIds]
      · simp [applyOp, sessionIds]

/-- C8 (amended): ids are derived from the `Date.now()` value of the add;
whenever those values are pairwise distinct across the adds of a run, the
ids in the resulting store are pairwise distinct. -/
theorem c8_fresh_ids (ops : List StoreOp) (h : (addTimes ops).Nodup) :
    (sessionIds (runOps ops)).Nodup :=
  runOpsFrom_nodup ops [] (by simp [sessionIds]) (by simp [sessionIds]) h

def seqOps : List StoreOp := [StoreOp.add 0 inpEmpty, StoreOp.add 1 inpEmpty]

/-- C8 (witness): two adds at clock values 0 and 1. -/
theorem c8_witness : (sessionIds (runOps seqOps)).Nodup :=
  c8_fresh_ids seqOps (by decide)

